/-
  Verification of the a2a-python SDK against its natural-language
  specification.

  Shallow embedding: the Python functions under scrutiny are translated
  into executable Lean definitions (dictionaries become association
  lists, Python truthiness is made explicit, exceptions become explicit
  error values), and the spec's claims are proved or refuted as theorems
  about those definitions.
-/
import Mathlib

namespace A2A

/-! ## Python truthiness helpers -/

/-- Python `x or d` for an optional string: `None` and `''` are falsy. -/
def pyOrStr (x : Option String) (d : String) : String :=
  match x with
  | none => d
  | some s => if s = "" then d else s

/-- Python truthiness of a list: empty is falsy. -/
def pyTruthyList {α : Type} (xs : List α) : Bool :=
  !xs.isEmpty

/-- Python truthiness of an optional bool (e.g. `capabilities.streaming`
    typed `bool | None`): `None` and `False` are falsy. -/
def pyTruthyOptBool (x : Option Bool) : Bool :=
  match x with
  | none => false
  | some b => b

/-- Python truthiness of an optional string: `None` and `''` are falsy. -/
def pyTruthyOptStr (x : Option String) : Bool :=
  match x with
  | none => false
  | some s => s ≠ ""

/-! ## Transport negotiation (`a2a/client/client_factory.py`)

`ClientFactory.create` builds the server's ordered preference list from
`card.preferred_transport` and `card.additional_interfaces`, the
client's list from `config.supported_transports`, and picks the first
match in the order given by `config.use_client_preference`. -/

/-- `AgentInterface { transport, url }` (from `a2a.types`). -/
structure AgentInterface where
  transport : String
  url : String
  deriving Repr, DecidableEq

/-- `AgentCapabilities` fields used by the clients. -/
structure AgentCapabilities where
  streaming : Option Bool := none
  push_notifications : Option Bool := none
  deriving Repr, DecidableEq

/-- The `AgentCard` fields consumed by `ClientFactory.create` and the
    unified clients' `send_message`. -/
structure CardView where
  preferred_transport : Option String := none
  additional_interfaces : List AgentInterface := []
  capabilities : AgentCapabilities := {}
  deriving Repr, DecidableEq

/-- The `ClientConfig` fields consumed by `ClientFactory.create` and the
    unified clients' `send_message` (`a2a/client/client.py`). -/
structure ClientConfig where
  streaming : Bool := true
  supported_transports : List String := []
  use_client_preference : Bool := false
  deriving Repr, DecidableEq

/-- `server_set = [card.preferred_transport or 'JSONRPC']`, extended with
    the transports of `card.additional_interfaces` when that list is
    truthy (`client_factory.py` lines 91-93). -/
def serverSet (card : CardView) : List String :=
  let base := [pyOrStr card.preferred_transport "JSONRPC"]
  if pyTruthyList card.additional_interfaces then
    base ++ card.additional_interfaces.map (·.transport)
  else
    base

/-- `client_set = self._config.supported_transports or ['JSONRPC']`
    (`client_factory.py` line 94). -/
def clientSet (config : ClientConfig) : List String :=
  if pyTruthyList config.supported_transports then
    config.supported_transports
  else
    ["JSONRPC"]

/-- The first element of `xs` that is a member of `ys`; `none` when no
    element matches (the `for`/`break` search in `create`). -/
def firstIn (xs ys : List String) : Option String :=
  match xs with
  | [] => none
  | x :: rest => if x ∈ ys then some x else firstIn rest ys

/-- Errors `ClientFactory.create` can raise during negotiation. -/
inductive FactoryError where
  | noCompatibleTransport
  | noClientAvailable (transport : String)
  deriving Repr, DecidableEq

/-- Transport negotiation in `ClientFactory.create`
    (`client_factory.py` lines 90-110): compute the preferred transport
    according to `use_client_preference`, then `if not transport: raise
    ValueError('no compatible transports found.')`.  Note the guard is
    Python truthiness, so an empty-string match is treated as no match.
    `registry` is the set of registered transport labels; an unregistered
    resolved transport raises `'no client available'`. -/
def createResolveTransport (registry : List String) (card : CardView)
    (config : ClientConfig) : Except FactoryError String :=
  let server_set := serverSet card
  let client_set := clientSet config
  let transport :=
    if config.use_client_preference then
      firstIn client_set server_set
    else
      firstIn server_set client_set
  if pyTruthyOptStr transport then
    let t := transport.getD ""
    if t ∈ registry then .ok t else .error (.noClientAvailable t)
  else
    .error .noCompatibleTransport

/-! ## Wire model

Modelled from the spec: the data classes of `a2a/types.py` are not
among the sources (only their users are), so `Message`, `Task`,
`TaskStatus`, `Artifact`, `AgentCard` and the security-scheme union are
reconstructed from spec §3 ("DATA MODEL"). -/

/-- A JSON value, used for wire serialization and for the `data` part
    payloads. -/
inductive Json where
  | null
  | bool (b : Bool)
  | str (s : String)
  | num (n : Int)
  | arr (elems : List Json)
  | obj (fields : List (String × Json))
  deriving Repr

/-- Modelled from the spec: `TaskState` (spec §3, Task lifecycle);
    terminal states per §8 are `completed | failed | canceled |
    rejected`. -/
inductive TaskState where
  | submitted
  | working
  | inputRequired
  | completed
  | failed
  | canceled
  | rejected
  | authRequired
  deriving Repr, DecidableEq

/-- Whether a state is terminal (spec §8: `completed|failed|canceled|rejected`). -/
def TaskState.isTerminal : TaskState → Bool
  | .completed | .failed | .canceled | .rejected => true
  | _ => false

/-- Wire name of a task state. -/
def TaskState.wireName : TaskState → String
  | .submitted => "submitted"
  | .working => "working"
  | .inputRequired => "input-required"
  | .completed => "completed"
  | .failed => "failed"
  | .canceled => "canceled"
  | .rejected => "rejected"
  | .authRequired => "auth-required"

/-- Modelled from the spec: message roles `user | agent` (spec §3). -/
inductive Role where
  | user
  | agent
  deriving Repr, DecidableEq

def Role.wireName : Role → String
  | .user => "user"
  | .agent => "agent"

/-- Modelled from the spec: `Part` is a tagged union
    `{kind:text, text} | {kind:data, data:json} | {kind:file, file:...}`
    (spec §3). -/
inductive Part where
  | text (text : String)
  | data (data : Json)
  | file (file : String)
  deriving Repr

/-- Modelled from the spec: `Message { role, parts, messageId, taskId?,
    contextId? }` (spec §3). -/
structure Message where
  role : Role
  parts : List Part
  message_id : String
  task_id : Option String := none
  context_id : Option String := none
  deriving Repr

/-- Modelled from the spec: `TaskStatus { state, message?, timestamp? }`
    (spec §3). -/
structure TaskStatus where
  state : TaskState
  message : Option Message := none
  timestamp : Option String := none
  deriving Repr

/-- Modelled from the spec: `Artifact { artifactId, name, parts }`
    (spec §3). -/
structure Artifact where
  artifact_id : String
  name : Option String := none
  parts : List Part
  deriving Repr

/-- Modelled from the spec: `Task { id, contextId, status, artifacts,
    history }` (spec §3). -/
structure Task where
  id : String
  context_id : String
  status : TaskStatus
  artifacts : List Artifact := []
  history : List Message := []
  deriving Repr

/-! ## Update events and the task aggregator

Modelled from the spec: the Task Manager / Result Aggregator
(`a2a/server/tasks/task_manager.py`, `a2a/server/tasks/result_aggregator.py`
and `a2a/client/client_task_manager.py` are not among the sources) folds
an ordered stream of update events into one `Task` view, per spec §4.3:
"On a status update, overwrite `status`; append the carried `message`
(if any) to `history`.  On an artifact update: if no existing artifact
with that `artifactId`, create it; if `append=true`, concatenate its
`parts` onto the existing artifact's parts; if `append=false`, replace
the parts wholesale." -/

/-- `TaskStatusUpdateEvent { taskId, contextId, status, final }` (spec §3). -/
structure TaskStatusUpdateEvent where
  taskId : String
  contextId : String
  status : TaskStatus
  final : Bool
  deriving Repr

/-- `TaskArtifactUpdateEvent { taskId, contextId, artifact, append,
    lastChunk }` (spec §3). -/
structure TaskArtifactUpdateEvent where
  taskId : String
  contextId : String
  artifact : Artifact
  append : Bool
  lastChunk : Bool
  deriving Repr

/-- Modelled from the spec: status-update folding (§4.3): on a status
    update for this task, overwrite `status` and append the carried
    message (if any) to `history`; an event for another task id leaves
    the view unchanged. -/
def applyStatusUpdate (t : Task) (e : TaskStatusUpdateEvent) : Task :=
  if e.taskId = t.id then
    { t with
      status := e.status,
      history := t.history ++ (match e.status.message with
                               | some m => [m]
                               | none => []) }
  else t

/-- Modelled from the spec: artifact merging (§4.3, scenario F). -/
def mergeArtifact (artifacts : List Artifact) (a : Artifact) (append : Bool) :
    List Artifact :=
  if (artifacts.find? (fun old => old.artifact_id == a.artifact_id)).isSome then
    artifacts.map (fun old =>
      if old.artifact_id == a.artifact_id then
        if append then { old with parts := old.parts ++ a.parts } else a
      else old)
  else artifacts ++ [a]

/-- Modelled from the spec: artifact-update folding (§4.3). -/
def applyArtifactUpdate (t : Task) (e : TaskArtifactUpdateEvent) : Task :=
  if e.taskId = t.id then
    { t with artifacts := mergeArtifact t.artifacts e.artifact e.append }
  else t

/-- Fold a sequence of status-update events into a task view. -/
def foldStatusUpdates (t : Task) (es : List TaskStatusUpdateEvent) : Task :=
  es.foldl applyStatusUpdate t

/-! ## Unified client `send_message`
(`a2a/client/jsonrpc_client.py` `JsonRpcClient.send_message`,
`a2a/client/grpc_client.py` `GrpcClient.send_message`,
`a2a/client/rest_client.py` `RestClient.send_message`)

All three share the same shape: when streaming is disabled in the
config or the card declares no streaming capability, make one blocking
transport call and yield one result; otherwise open a streaming call
and fold events through a `ClientTaskManager`. -/

/-- A successful decoded result of a blocking `send_message` transport
    call: the server answers with a `Task` or a `Message`. -/
inductive SendResult where
  | task (t : Task)
  | msg (m : Message)
  deriving Repr

/-- One decoded event on a streaming `send_message` response. -/
inductive StreamEvent where
  | task (t : Task)
  | msg (m : Message)
  | statusUpdate (e : TaskStatusUpdateEvent)
  | artifactUpdate (e : TaskArtifactUpdateEvent)
  deriving Repr

/-- `UpdateEvent = TaskStatusUpdateEvent | TaskArtifactUpdateEvent | None`
    (`a2a/client/client.py`). -/
inductive UpdateEvent where
  | status (e : TaskStatusUpdateEvent)
  | artifact (e : TaskArtifactUpdateEvent)
  deriving Repr

/-- An item yielded by `Client.send_message`: a plain `Message`, or a
    `(Task, UpdateEvent|None)` pair (`ClientEvent` in
    `a2a/client/client.py`; on the streaming path the first component is
    the tracker's current task, which may be absent). -/
inductive ClientYield where
  | msg (m : Message)
  | pair (t : Option Task) (u : Option UpdateEvent)
  deriving Repr

/-- Modelled from the spec: `ClientTaskManager.process`
    (`a2a/client/client_task_manager.py` is not among the sources; §4.3):
    a `Task` event (re)initializes the snapshot; a status or artifact
    event initializes a minimal snapshot on first sight and then folds
    per §4.3. -/
def clientTaskManagerProcess (tracker : Option Task) (e : StreamEvent) :
    Option Task :=
  match e with
  | .task t => some t
  | .msg _ => tracker
  | .statusUpdate s =>
    let base := tracker.getD
      { id := s.taskId, context_id := s.contextId,
        status := { state := .submitted } }
    some (applyStatusUpdate base s)
  | .artifactUpdate a =>
    let base := tracker.getD
      { id := a.taskId, context_id := a.contextId,
        status := { state := .submitted } }
    some (applyArtifactUpdate base a)

/-- A JSON-RPC error object `{code, message}` (`a2a.types.JSONRPCError`). -/
structure JsonRpcErrorObj where
  code : Int
  message : String
  deriving Repr, DecidableEq

/-- A decoded JSON-RPC response envelope: an error envelope
    (`JSONRPCErrorResponse`) or a success result. -/
inductive JsonRpcResp (α : Type) where
  | errorEnvelope (err : JsonRpcErrorObj)
  | success (result : α)
  deriving Repr

/-- The errors a client call can raise to its caller. -/
inductive RaisedError where
  /-- `A2AClientHTTPError(status, message)`. -/
  | clientHTTP (status : Nat) (message : String)
  /-- `A2AClientJSONError(message)`. -/
  | clientJSON (message : String)
  /-- `raise response.root.error` for a JSON-RPC error envelope
      (`jsonrpc_client.py` lines 584-585, 602-603). -/
  | jsonRpcError (err : JsonRpcErrorObj)
  /-- A pydantic `ValidationError` escaping `model_validate`, which is
      outside the `try` of `_send_request`. -/
  | validationError (message : String)
  deriving Repr, DecidableEq

/-- Whether an error is one of the two kinds the spec declares
    client-visible (`ClientHTTPError` / `ClientJSONError`). -/
def RaisedError.isSpecClientKind : RaisedError → Bool
  | .clientHTTP _ _ => true
  | .clientJSON _ => true
  | _ => false

/-- Which transport calls a `send_message` invocation performed, and
    what it yielded. -/
structure SendMessageOutcome where
  blockingCalls : Nat
  streamingCalls : Nat
  yields : List ClientYield
  deriving Repr

/-- The streaming branch shared by the three clients: for each decoded
    event, a plain `Message` is yielded and the generator returns; any
    other event is folded into the tracker and yielded as
    `(tracker.get_task(), update)`, where the update component is `None`
    for a full `Task` event. -/
def streamEventsLoop (tracker : Option Task) (acc : List ClientYield) :
    List StreamEvent → List ClientYield
  | [] => acc
  | e :: rest =>
    match e with
    | .msg m => acc ++ [.msg m]
    | _ =>
      let tracker' := clientTaskManagerProcess tracker e
      let upd : Option UpdateEvent :=
        match e with
        | .statusUpdate s => some (.status s)
        | .artifactUpdate a => some (.artifact a)
        | _ => none
      streamEventsLoop tracker' (acc ++ [.pair tracker' upd]) rest

/-- The streaming branch of `JsonRpcClient.send_message`: each SSE
    envelope is checked for a JSON-RPC error envelope (raises) before
    the shared folding. -/
def jsonRpcStreamLoop (tracker : Option Task) (acc : List ClientYield) :
    List (JsonRpcResp StreamEvent) → Except RaisedError (List ClientYield)
  | [] => .ok acc
  | r :: rest =>
    match r with
    | .errorEnvelope err => .error (.jsonRpcError err)
    | .success e =>
      match e with
      | .msg m => .ok (acc ++ [.msg m])
      | _ =>
        let tracker' := clientTaskManagerProcess tracker e
        let upd : Option UpdateEvent :=
          match e with
          | .statusUpdate s => some (.status s)
          | .artifactUpdate a => some (.artifact a)
          | _ => none
        jsonRpcStreamLoop tracker' (acc ++ [.pair tracker' upd]) rest

/-- `JsonRpcClient.send_message` (`jsonrpc_client.py` lines 566-616),
    given the decoded transport responses: if
    `not config.streaming or not card.capabilities.streaming`, one
    blocking call is made; an error envelope raises
    `response.root.error`; a success result is yielded as a `Message`
    or a `(task, None)` pair.  Otherwise one streaming call is made and
    folded. -/
def jsonRpcClientSendMessage (config : ClientConfig) (card : CardView)
    (blockingResp : JsonRpcResp SendResult)
    (streamResps : List (JsonRpcResp StreamEvent)) :
    Except RaisedError SendMessageOutcome :=
  if !config.streaming || !pyTruthyOptBool card.capabilities.streaming then
    match blockingResp with
    | .errorEnvelope err => .error (.jsonRpcError err)
    | .success result =>
      .ok { blockingCalls := 1, streamingCalls := 0,
            yields := [match result with
                       | .msg m => .msg m
                       | .task t => .pair (some t) none] }
  else
    match jsonRpcStreamLoop none [] streamResps with
    | .error e => .error e
    | .ok ys => .ok { blockingCalls := 0, streamingCalls := 1, yields := ys }

/-- `GrpcClient.send_message` (`grpc_client.py` lines 273-317): the gRPC
    transport returns decoded `Task | Message` values directly. -/
def grpcClientSendMessage (config : ClientConfig) (card : CardView)
    (blockingResp : SendResult) (streamEvents : List StreamEvent) :
    SendMessageOutcome :=
  if !config.streaming || !pyTruthyOptBool card.capabilities.streaming then
    { blockingCalls := 1, streamingCalls := 0,
      yields := [match blockingResp with
                 | .msg m => .msg m
                 | .task t => .pair (some t) none] }
  else
    { blockingCalls := 0, streamingCalls := 1,
      yields := streamEventsLoop none [] streamEvents }

/-- `RestClient.send_message` (`rest_client.py` lines 591-640): same
    branch structure as the gRPC client. -/
def restClientSendMessage (config : ClientConfig) (card : CardView)
    (blockingResp : SendResult) (streamEvents : List StreamEvent) :
    SendMessageOutcome :=
  if !config.streaming || !pyTruthyOptBool card.capabilities.streaming then
    { blockingCalls := 1, streamingCalls := 0,
      yields := [match blockingResp with
                 | .msg m => .msg m
                 | .task t => .pair (some t) none] }
  else
    { blockingCalls := 0, streamingCalls := 1,
      yields := streamEventsLoop none [] streamEvents }

/-! ## Transport-layer error surfacing
(`a2a/client/jsonrpc_client.py` `JsonRpcTransportClient._send_request`,
lines 248-280) -/

/-- Outcome of `httpx_client.post` + `response.raise_for_status()` +
    `response.json()`. -/
inductive HttpPostOutcome where
  /-- `httpx.HTTPStatusError` from `raise_for_status`. -/
  | statusError (code : Nat) (detail : String)
  /-- `httpx.RequestError` (network-layer failure, including timeouts). -/
  | requestError (detail : String)
  /-- A 2xx body: decoded JSON, or the `json.JSONDecodeError` message. -/
  | ok (body : Except String Json)

/-- `_send_request`: posts the payload and maps each failure to a
    client error: HTTP status errors keep their status code, JSON decode
    failures become `A2AClientJSONError`, network errors become
    `A2AClientHTTPError(503, ...)`. -/
def sendRequest (outcome : HttpPostOutcome) : Except RaisedError Json :=
  match outcome with
  | .statusError code detail => .error (.clientHTTP code detail)
  | .requestError detail =>
    .error (.clientHTTP 503 ("Network communication error: " ++ detail))
  | .ok (.error msg) => .error (.clientJSON msg)
  | .ok (.ok j) => .ok j

/-- A blocking transport method (`send_message`, `get_task`, ...):
    `_send_request` followed by `model_validate` on the JSON payload.
    The validation step sits outside `_send_request`'s `try`, so a
    schema failure escapes as a raw pydantic `ValidationError`. -/
def transportCall {α : Type} (validate : Json → Except String α)
    (outcome : HttpPostOutcome) : Except RaisedError α :=
  match sendRequest outcome with
  | .error e => .error e
  | .ok j =>
    match validate j with
    | .error msg => .error (.validationError msg)
    | .ok resp => .ok resp

/-! ## Push notifications
(`a2a/server/tasks/base_push_notification_sender.py`,
`a2a/server/tasks/inmemory_push_notification_config_store.py`,
`a2a/server/tasks/database_push_notification_config_store.py`) -/

/-- `PushNotificationConfig { id?, url, token? }` (spec §3 /
    `a2a.types`). -/
structure PushNotificationConfig where
  id : Option String := none
  url : String
  token : Option String := none
  deriving Repr, DecidableEq

/-- Outcome of the HTTP POST performed by `_dispatch_notification`
    (`httpx_client.post` + `raise_for_status`). -/
inductive PostOutcome where
  | success
  | httpStatusError (code : Nat)
  | networkError (detail : String)
  deriving Repr, DecidableEq

/-- An uncaught Python exception escaping to the caller. -/
abbrev PyError : Type := String

/-- What a `PushNotificationConfigStore.get_info` implementation returns
    at runtime: the abstract interface
    (`push_notification_config_store.py` line 14) and the in-memory
    store declare `PushNotificationConfig | None`, while the database
    store returns `list[PushNotificationConfig]`. -/
inductive GetInfoResult where
  | single (c : Option PushNotificationConfig)
  | multi (cs : List PushNotificationConfig)
  deriving Repr, DecidableEq

/-- Python truthiness of `push_configs` (`if not push_configs:`):
    `None` and an empty list are falsy; a pydantic model instance and a
    non-empty list are truthy. -/
def pyTruthyGetInfo : GetInfoResult → Bool
  | .single none => false
  | .single (some _) => true
  | .multi cs => !cs.isEmpty

/-- A value `for push_info in push_configs` binds: an element when the
    store returned a list, or a `(field name, value)` tuple when it
    returned a single pydantic config — iterating a pydantic model
    yields its fields.  The tuple's value component is irrelevant here:
    the attribute access below fails on any tuple. -/
inductive PushInfoValue where
  | config (c : PushNotificationConfig)
  | fieldTuple (name : String)
  deriving Repr, DecidableEq

/-- Python iteration of the store result: a list yields its elements; a
    single pydantic `PushNotificationConfig` yields its `(field, value)`
    tuples in declaration order (`id`, `url`, `token`); `None` is never
    iterated (the truthiness guard returns first). -/
def pushConfigsIter : GetInfoResult → List PushInfoValue
  | .multi cs => cs.map .config
  | .single none => []
  | .single (some _) =>
    [.fieldTuple "id", .fieldTuple "url", .fieldTuple "token"]

/-- `BasePushNotificationSender._dispatch_notification`
    (`base_push_notification_sender.py` lines 37-46):
    `url = push_info.url` runs first, *outside* the `try` — on a field
    tuple it raises `AttributeError` to the caller; on a config, the
    POST and `raise_for_status` sit inside `try ... except Exception`,
    so every delivery failure is caught and logged at error level.
    Returns the URL posted to and whether the attempt was logged as an
    error. -/
def dispatchNotification (post : String → PostOutcome)
    (info : PushInfoValue) : Except PyError (String × Bool) :=
  match info with
  | .config c =>
    match post c.url with
    | .success => .ok (c.url, false)
    | .httpStatusError _ => .ok (c.url, true)
    | .networkError _ => .ok (c.url, true)
  | .fieldTuple _ =>
    .error "AttributeError: 'tuple' object has no attribute 'url'"

/-- `BasePushNotificationSender.send_notification`
    (`base_push_notification_sender.py` lines 28-35): look up the
    configurations for `task.id`; if the result is falsy, return
    immediately; otherwise `for push_info in push_configs` dispatches
    once per iterated value — which are field tuples, not configs, when
    the store follows the interface's single-config signature. -/
def sendNotification (getInfo : String → GetInfoResult)
    (post : String → PostOutcome) (task : Task) :
    Except PyError (List (String × Bool)) :=
  let push_configs := getInfo task.id
  if !pyTruthyGetInfo push_configs then .ok []
  else sendLoop (pushConfigsIter push_configs)
where
  /-- `for push_info in push_configs: await self._dispatch_notification(...)`. -/
  sendLoop : List PushInfoValue → Except PyError (List (String × Bool))
    | [] => .ok []
    | info :: rest => do
      let r ← dispatchNotification post info
      let rs ← sendLoop rest
      pure (r :: rs)

/-- `InMemoryPushNotificationConfigStore` keeps one config per task in a
    dict; `set_info` overwrites (`inmemory_push_notification_config_store.py`
    lines 25-30). -/
abbrev InMemoryConfigStore : Type := List (String × PushNotificationConfig)

/-- Dict assignment `d[k] = v`: replace the entry for `k` if present,
    else append. -/
def dictSet (store : InMemoryConfigStore) (taskId : String)
    (config : PushNotificationConfig) : InMemoryConfigStore :=
  if (store.find? (fun p => p.1 == taskId)).isSome then
    store.map (fun p => if p.1 == taskId then (taskId, config) else p)
  else store ++ [(taskId, config)]

/-- `InMemoryPushNotificationConfigStore.set_info`. -/
def inMemorySetInfo (store : InMemoryConfigStore) (taskId : String)
    (config : PushNotificationConfig) : InMemoryConfigStore :=
  dictSet store taskId config

/-- `InMemoryPushNotificationConfigStore.get_info`: `dict.get`, the
    single stored config or `None`. -/
def inMemoryGetInfo (store : InMemoryConfigStore) (taskId : String) :
    Option PushNotificationConfig :=
  (store.find? (fun p => p.1 == taskId)).map (·.2)

/-- A row of the `push_notification_configs` table.  Modelled from the
    spec: `a2a/server/models.py` is not among the sources; spec §9 says
    the database store keeps a list of configs per task "keyed by
    `config_id`". -/
structure PushConfigRow where
  task_id : String
  config_id : String
  config : PushNotificationConfig
  deriving Repr, DecidableEq

/-- The effective config stored by `DatabasePushNotificationConfigStore.set_info`
    (`database_push_notification_config_store.py` lines 188-203): a
    config without an `id` gets the task id as its id. -/
def dbEffectiveConfig (taskId : String) (config : PushNotificationConfig) :
    PushNotificationConfig :=
  if config.id = none then { config with id := some taskId } else config

/-- `DatabasePushNotificationConfigStore.set_info`: `session.merge` on
    the `(task_id, config_id)` key — update the matching row if present,
    else insert. -/
def dbSetInfo (table : List PushConfigRow) (taskId : String)
    (config : PushNotificationConfig) : List PushConfigRow :=
  let saved := dbEffectiveConfig taskId config
  let key := saved.id.getD ""
  if (table.find? (fun r => r.task_id == taskId && r.config_id == key)).isSome then
    table.map (fun r =>
      if r.task_id == taskId && r.config_id == key then
        { task_id := taskId, config_id := key, config := saved }
      else r)
  else table ++ [{ task_id := taskId, config_id := key, config := saved }]

/-- `DatabasePushNotificationConfigStore.get_info`
    (`database_push_notification_config_store.py` lines 205-226):
    select all rows for the task id and return their configs. -/
def dbGetInfo (table : List PushConfigRow) (taskId : String) :
    List PushNotificationConfig :=
  (table.filter (fun r => r.task_id == taskId)).map (·.config)

/-! ## Redis-backed queue manager
(`a2a/server/events/redis_queue_manager.py`)

Queues are identified by numeric handles; closing a queue and
cancelling a relay task are recorded as effects in the state. -/

/-- Errors raised by queue managers (`a2a/server/events`). -/
inductive QueueManagerError where
  | taskQueueExists
  | noTaskQueue
  deriving Repr, DecidableEq

/-- The mutable state of one `RedisQueueManager` together with the
    Redis-side registry set it manipulates. -/
structure RedisManagerState where
  /-- `self._local_queue : dict[str, EventQueue]`. -/
  localQueue : List (String × Nat) := []
  /-- `self._proxy_queue : dict[str, EventQueue]`. -/
  proxyQueue : List (String × Nat) := []
  /-- Keys of `self._background_tasks` (relay tasks). -/
  backgroundTasks : List String := []
  /-- Relay tasks that have been cancelled. -/
  cancelledRelays : List String := []
  /-- Task ids whose Redis channel this manager is subscribed to. -/
  subscribedChannels : List String := []
  /-- Members of the Redis set under `task_registry_key`. -/
  registry : List String := []
  /-- Queues on which `close()` has been called. -/
  closedQueues : List Nat := []
  deriving Repr, DecidableEq

/-- `RedisQueueManager.add` (`redis_queue_manager.py` lines 89-103):
    under the lock, raise `TaskQueueExists` if the task id is already in
    the global registry; otherwise store the queue locally and register
    the task id (`sadd` + spawn a relay task). -/
def redisAdd (s : RedisManagerState) (taskId : String) (queue : Nat) :
    Option QueueManagerError × RedisManagerState :=
  if taskId ∈ s.registry then (some .taskQueueExists, s)
  else
    (none,
     { s with
       localQueue := dictSetNat s.localQueue taskId queue,
       registry := s.registry ++ [taskId],
       backgroundTasks := s.backgroundTasks ++ [taskId] })
where
  /-- Dict assignment for the queue maps. -/
  dictSetNat (m : List (String × Nat)) (k : String) (v : Nat) :
      List (String × Nat) :=
    if (m.find? (fun p => p.1 == k)).isSome then
      m.map (fun p => if p.1 == k then (k, v) else p)
    else m ++ [(k, v)]

/-- `RedisQueueManager.close` (`redis_queue_manager.py` lines 145-175):
    a local queue is popped, closed, its relay task cancelled and the
    task id removed from the global registry; otherwise a proxy queue is
    popped, closed and its channel unsubscribed, leaving the registry
    untouched; otherwise `NoTaskQueue` is raised. -/
def redisClose (s : RedisManagerState) (taskId : String) :
    Option QueueManagerError × RedisManagerState :=
  match s.localQueue.find? (fun p => p.1 == taskId) with
  | some entry =>
    (none,
     { s with
       localQueue := s.localQueue.filter (fun p => p.1 != taskId),
       closedQueues := s.closedQueues ++ [entry.2],
       cancelledRelays :=
         if taskId ∈ s.backgroundTasks then s.cancelledRelays ++ [taskId]
         else s.cancelledRelays,
       registry := s.registry.filter (fun t => t != taskId) })
  | none =>
    match s.proxyQueue.find? (fun p => p.1 == taskId) with
    | some entry =>
      (none,
       { s with
         proxyQueue := s.proxyQueue.filter (fun p => p.1 != taskId),
         closedQueues := s.closedQueues ++ [entry.2],
         subscribedChannels := s.subscribedChannels.filter (fun t => t != taskId) })
    | none => (some .noTaskQueue, s)

/-- Whether the manager holds a local queue for the task id. -/
def hasLocalQueue (s : RedisManagerState) (taskId : String) : Bool :=
  (s.localQueue.find? (fun p => p.1 == taskId)).isSome

/-- Whether the manager holds a proxy queue for the task id. -/
def hasProxyQueue (s : RedisManagerState) (taskId : String) : Bool :=
  (s.proxyQueue.find? (fun p => p.1 == taskId)).isSome

/-! ## Auth interceptor
(`a2a/client/auth/interceptor.py` `AuthInterceptor.intercept`) -/

/-- `In` locations for API-key security schemes (`a2a.types.In`). -/
inductive InLocation where
  | header
  | query
  | cookie
  deriving Repr, DecidableEq

/-- The `SecurityScheme` union as the interceptor discriminates it:
    `HTTPAuthSecurityScheme` (with its `scheme` label),
    `OAuth2SecurityScheme`, `APIKeySecurityScheme` (with location and
    header name), and the remaining variants the interceptor does not
    touch. -/
inductive SecuritySchemeDef where
  | httpAuth (scheme : String)
  | oauth2
  | apiKey (location : InLocation) (name : String)
  | otherScheme
  deriving Repr, DecidableEq

/-- The `AgentCard` fields `AuthInterceptor.intercept` reads:
    `security` is a list of requirements, each a dict iterated by its
    scheme names; `securitySchemes` is a dict whose values may be
    `None`. -/
structure CardSecurityView where
  security : List (List String) := []
  securitySchemes : List (String × Option SecuritySchemeDef) := []
  deriving Repr, DecidableEq

/-- The request payload dict; the interceptor never touches it. -/
structure RequestPayload where
  fields : List (String × String)
  deriving Repr, DecidableEq

/-- The `http_kwargs` dict: the `'headers'` entry (absent or a header
    dict) plus all other keyword arguments. -/
structure HttpKwargs where
  headers : Option (List (String × String)) := none
  others : List (String × String) := []
  deriving Repr, DecidableEq

/-- Header-dict assignment `headers[name] = value`. -/
def headersSet (hs : List (String × String)) (name value : String) :
    List (String × String) :=
  if (hs.find? (fun p => p.1 == name)).isSome then
    hs.map (fun p => if p.1 == name then (name, value) else p)
  else hs ++ [(name, value)]

/-- `headers = http_kwargs.get('headers', {})`; set one header; write
    the dict back under `'headers'`. -/
def kwargsSetHeader (kwargs : HttpKwargs) (name value : String) : HttpKwargs :=
  { kwargs with headers := some (headersSet (kwargs.headers.getD []) name value) }

/-- Dict lookup in `securitySchemes`. -/
def schemesGet (schemes : List (String × Option SecuritySchemeDef))
    (name : String) : Option (Option SecuritySchemeDef) :=
  (schemes.find? (fun p => p.1 == name)).map (·.2)

/-- The body of the interceptor's scheme dispatch
    (`interceptor.py` lines 44-64): HTTP auth with a `bearer` scheme and
    OAuth2 set `Authorization: Bearer <credential>`; an API key with
    `in=header` sets the named header; anything else falls through to
    the next scheme name. -/
def trySchemeAttach (credential : String) (schemeDef : SecuritySchemeDef)
    (kwargs : HttpKwargs) : Option HttpKwargs :=
  match schemeDef with
  | .httpAuth scheme =>
    if scheme.toLower = "bearer" then
      some (kwargsSetHeader kwargs "Authorization" ("Bearer " ++ credential))
    else none
  | .oauth2 =>
    some (kwargsSetHeader kwargs "Authorization" ("Bearer " ++ credential))
  | .apiKey location name =>
    if location = .header then some (kwargsSetHeader kwargs name credential)
    else none
  | .otherScheme => none

/-- The inner loop over one requirement's scheme names
    (`interceptor.py` lines 34-64): skip a name when its credential is
    falsy, the name is not among `securitySchemes`, the scheme
    definition is falsy, or the scheme kind is not handled; on the first
    match, return the request with the header attached. -/
def interceptNames (creds : String → Option String)
    (schemes : List (String × Option SecuritySchemeDef))
    (payload : RequestPayload) (kwargs : HttpKwargs) :
    List String → Option (RequestPayload × HttpKwargs)
  | [] => none
  | name :: rest =>
    let credential := creds name
    if pyTruthyOptStr credential && (schemesGet schemes name).isSome then
      match schemesGet schemes name with
      | some (some schemeDef) =>
        match trySchemeAttach (credential.getD "") schemeDef kwargs with
        | some kwargs' => some (payload, kwargs')
        | none => interceptNames creds schemes payload kwargs rest
      | _ => interceptNames creds schemes payload kwargs rest
    else interceptNames creds schemes payload kwargs rest

/-- The outer loop over the card's security requirements. -/
def interceptRequirements (creds : String → Option String)
    (schemes : List (String × Option SecuritySchemeDef))
    (payload : RequestPayload) (kwargs : HttpKwargs) :
    List (List String) → Option (RequestPayload × HttpKwargs)
  | [] => none
  | req :: rest =>
    match interceptNames creds schemes payload kwargs req with
    | some result => some result
    | none => interceptRequirements creds schemes payload kwargs rest

/-- `AuthInterceptor.intercept` (`interceptor.py` lines 22-66): return
    the request unmodified when the card is absent or has falsy
    `security` / `securitySchemes`; otherwise scan the requirements and
    return on the first attachable credential; when nothing matches,
    fall through to returning the request unmodified. -/
def authIntercept (creds : String → Option String)
    (agentCard : Option CardSecurityView)
    (payload : RequestPayload) (kwargs : HttpKwargs) :
    RequestPayload × HttpKwargs :=
  match agentCard with
  | none => (payload, kwargs)
  | some card =>
    if !pyTruthyList card.security || !pyTruthyList card.securitySchemes then
      (payload, kwargs)
    else
      match interceptRequirements creds card.securitySchemes payload kwargs
          card.security with
      | some result => result
      | none => (payload, kwargs)

/-- Whether the interceptor's dispatch handles a scheme kind at all
    (the claim's "advertised scheme that the interceptor handles"):
    bearer HTTP auth, OAuth2, or an API key carried in a header. -/
def handlesScheme : SecuritySchemeDef → Bool
  | .httpAuth scheme => scheme.toLower = "bearer"
  | .oauth2 => true
  | .apiKey location _ => location = .header
  | .otherScheme => false

/-- A scheme name yields an attachable credential: the credential is
    truthy and the name maps to a non-null scheme the interceptor
    handles. -/
def usableCredentialFor (creds : String → Option String)
    (schemes : List (String × Option SecuritySchemeDef)) (name : String) :
    Bool :=
  pyTruthyOptStr (creds name) &&
    (match schemesGet schemes name with
     | some (some schemeDef) => handlesScheme schemeDef
     | _ => false)

/-! ## Wire serialization (`a2a/_base.py` `A2ABaseModel`)

`A2ABaseModel` serializes snake_case fields under camelCase aliases
produced by `to_camel_custom` (`alias_generator`), and validates by
alias.  The encoders below emit one `(alias, value)` pair per field in
declaration order; the decoders look fields up by the same generated
alias, mirroring `validate_by_alias`. -/

/-- `snake.rstrip('_')` — `to_camel_custom` first removes trailing
    underscores (`_base.py` lines 16-19). -/
def dropTrailingUnderscores (cs : List Char) : List Char :=
  (cs.reverse.dropWhile (fun c => c = '_')).reverse

/-- Split a snake_case identifier's characters at underscores. -/
def splitUnderscore : List Char → List (List Char)
  | [] => [[]]
  | c :: cs =>
    if c = '_' then [] :: splitUnderscore cs
    else
      match splitUnderscore cs with
      | [] => [[c]]
      | w :: ws => (c :: w) :: ws

/-- Capitalize the first character of a word. -/
def capitalizeChars : List Char → List Char
  | [] => []
  | c :: cs => c.toUpper :: cs

/-- `to_camel_custom` (`_base.py` lines 7-20): strip trailing
    underscores, then convert snake_case to camelCase (pydantic
    `to_camel` on an all-lowercase snake_case identifier keeps the first
    word and capitalizes the ones that follow). -/
def toCamelCustom (snake : String) : String :=
  match splitUnderscore (dropTrailingUnderscores snake.data) with
  | [] => ""
  | w :: ws => String.mk (w ++ (ws.map capitalizeChars).flatten)

/-- Field lookup by alias in a serialized object. -/
def jLookup : List (String × Json) → String → Option Json
  | [], _ => none
  | (k, v) :: rest, key => if k = key then some v else jLookup rest key

/-- Decode every element of a JSON array. -/
def decAll {α : Type} (d : Json → Option α) : List Json → Option (List α)
  | [] => some []
  | j :: js =>
    match d j, decAll d js with
    | some x, some xs => some (x :: xs)
    | _, _ => none

/-- Decode the values of a serialized dict, keeping its keys. -/
def decPairs {α : Type} (d : Json → Option α) :
    List (String × Json) → Option (List (String × α))
  | [] => some []
  | (k, v) :: rest =>
    match d v, decPairs d rest with
    | some x, some xs => some ((k, x) :: xs)
    | _, _ => none

/-- Serialize an optional string (`None` → `null`). -/
def encOptStr : Option String → Json
  | none => .null
  | some s => .str s

def decStr : Json → Option String
  | .str s => some s
  | _ => none

def decOptStr : Json → Option (Option String)
  | .null => some none
  | .str s => some (some s)
  | _ => none

def encOptBool : Option Bool → Json
  | none => .null
  | some b => .bool b

def decOptBool : Json → Option (Option Bool)
  | .null => some none
  | .bool b => some (some b)
  | _ => none

def decRole (j : Json) : Option Role :=
  match j with
  | .str s =>
    if s = "user" then some .user
    else if s = "agent" then some .agent
    else none
  | _ => none

def decTaskState (j : Json) : Option TaskState :=
  match j with
  | .str s =>
    if s = "submitted" then some .submitted
    else if s = "working" then some .working
    else if s = "input-required" then some .inputRequired
    else if s = "completed" then some .completed
    else if s = "failed" then some .failed
    else if s = "canceled" then some .canceled
    else if s = "rejected" then some .rejected
    else if s = "auth-required" then some .authRequired
    else none
  | _ => none

/-- Serialize a `Part` with its `kind` discriminant (spec §3, §9). -/
def encPart : Part → Json
  | .text t => .obj [("kind", .str "text"), ("text", .str t)]
  | .data d => .obj [("kind", .str "data"), ("data", d)]
  | .file f => .obj [("kind", .str "file"), ("file", .str f)]

def decPart (j : Json) : Option Part :=
  match j with
  | .obj fs =>
    match jLookup fs "kind" with
    | some (.str k) =>
      if k = "text" then
        match jLookup fs "text" with
        | some (.str t) => some (.text t)
        | _ => none
      else if k = "data" then
        match jLookup fs "data" with
        | some d => some (.data d)
        | _ => none
      else if k = "file" then
        match jLookup fs "file" with
        | some (.str f) => some (.file f)
        | _ => none
      else none
    | _ => none
  | _ => none

def decPartList (j : Json) : Option (List Part) :=
  match j with
  | .arr js => decAll decPart js
  | _ => none

def encMessage (m : Message) : Json :=
  .obj [(toCamelCustom "role", .str m.role.wireName),
        (toCamelCustom "parts", .arr (m.parts.map encPart)),
        (toCamelCustom "message_id", .str m.message_id),
        (toCamelCustom "task_id", encOptStr m.task_id),
        (toCamelCustom "context_id", encOptStr m.context_id)]

def decMessage (j : Json) : Option Message :=
  match j with
  | .obj fs =>
    match (jLookup fs (toCamelCustom "role")).bind decRole,
          (jLookup fs (toCamelCustom "parts")).bind decPartList,
          (jLookup fs (toCamelCustom "message_id")).bind decStr,
          (jLookup fs (toCamelCustom "task_id")).bind decOptStr,
          (jLookup fs (toCamelCustom "context_id")).bind decOptStr with
    | some role, some parts, some mid, some tid, some cid =>
      some { role := role, parts := parts, message_id := mid,
             task_id := tid, context_id := cid }
    | _, _, _, _, _ => none
  | _ => none

def encOptMessage : Option Message → Json
  | none => .null
  | some m => encMessage m

def decOptMessage (j : Json) : Option (Option Message) :=
  match j with
  | .null => some none
  | _ => (decMessage j).map some

def encTaskStatus (st : TaskStatus) : Json :=
  .obj [(toCamelCustom "state", .str st.state.wireName),
        (toCamelCustom "message", encOptMessage st.message),
        (toCamelCustom "timestamp", encOptStr st.timestamp)]

def decTaskStatus (j : Json) : Option TaskStatus :=
  match j with
  | .obj fs =>
    match (jLookup fs (toCamelCustom "state")).bind decTaskState,
          (jLookup fs (toCamelCustom "message")).bind decOptMessage,
          (jLookup fs (toCamelCustom "timestamp")).bind decOptStr with
    | some state, some message, some timestamp =>
      some { state := state, message := message, timestamp := timestamp }
    | _, _, _ => none
  | _ => none

def encArtifact (a : Artifact) : Json :=
  .obj [(toCamelCustom "artifact_id", .str a.artifact_id),
        (toCamelCustom "name", encOptStr a.name),
        (toCamelCustom "parts", .arr (a.parts.map encPart))]

def decArtifact (j : Json) : Option Artifact :=
  match j with
  | .obj fs =>
    match (jLookup fs (toCamelCustom "artifact_id")).bind decStr,
          (jLookup fs (toCamelCustom "name")).bind decOptStr,
          (jLookup fs (toCamelCustom "parts")).bind decPartList with
    | some aid, some name, some parts =>
      some { artifact_id := aid, name := name, parts := parts }
    | _, _, _ => none
  | _ => none

def encTask (t : Task) : Json :=
  .obj [(toCamelCustom "id", .str t.id),
        (toCamelCustom "context_id", .str t.context_id),
        (toCamelCustom "status", encTaskStatus t.status),
        (toCamelCustom "artifacts", .arr (t.artifacts.map encArtifact)),
        (toCamelCustom "history", .arr (t.history.map encMessage))]

def decTask (j : Json) : Option Task :=
  match j with
  | .obj fs =>
    match (jLookup fs (toCamelCustom "id")).bind decStr,
          (jLookup fs (toCamelCustom "context_id")).bind decStr,
          (jLookup fs (toCamelCustom "status")).bind decTaskStatus,
          (jLookup fs (toCamelCustom "artifacts")),
          (jLookup fs (toCamelCustom "history")) with
    | some tid, some cid, some status, some (.arr arts), some (.arr hist) =>
      match decAll decArtifact arts, decAll decMessage hist with
      | some artifacts, some history =>
        some { id := tid, context_id := cid, status := status,
               artifacts := artifacts, history := history }
      | _, _ => none
    | _, _, _, _, _ => none
  | _ => none

/-- Wire name of an API-key location (`a2a.types.In`). -/
def InLocation.wireName : InLocation → String
  | .header => "header"
  | .query => "query"
  | .cookie => "cookie"

def decInLocation (j : Json) : Option InLocation :=
  match j with
  | .str s =>
    if s = "header" then some .header
    else if s = "query" then some .query
    else if s = "cookie" then some .cookie
    else none
  | _ => none

/-- Serialize a security scheme with its `type` discriminant; the
    `in_` field of an API-key scheme goes out under the alias produced
    by `to_camel_custom`, i.e. `in`. -/
def encSecurityScheme : SecuritySchemeDef → Json
  | .httpAuth scheme =>
    .obj [("type", .str "http"), ("scheme", .str scheme)]
  | .oauth2 => .obj [("type", .str "oauth2")]
  | .apiKey location name =>
    .obj [("type", .str "apiKey"),
          (toCamelCustom "in_", .str location.wireName),
          ("name", .str name)]
  | .otherScheme => .obj [("type", .str "mutualTLS")]

def decSecurityScheme (j : Json) : Option SecuritySchemeDef :=
  match j with
  | .obj fs =>
    match jLookup fs "type" with
    | some (.str ty) =>
      if ty = "http" then
        match jLookup fs "scheme" with
        | some (.str scheme) => some (.httpAuth scheme)
        | _ => none
      else if ty = "oauth2" then some .oauth2
      else if ty = "apiKey" then
        match (jLookup fs (toCamelCustom "in_")).bind decInLocation,
              jLookup fs "name" with
        | some location, some (.str name) => some (.apiKey location name)
        | _, _ => none
      else if ty = "mutualTLS" then some .otherScheme
      else none
    | _ => none
  | _ => none

/-- Modelled from the spec: `AgentSkill` entries of `card.skills`
    (spec §3). -/
structure AgentSkill where
  id : String
  name : String
  description : String
  deriving Repr, DecidableEq

/-- Modelled from the spec: `AgentCard { name, url, version,
    capabilities, securitySchemes, security, skills, preferredTransport,
    additionalInterfaces }` (spec §3). -/
structure AgentCard where
  name : String
  url : String
  version : String
  capabilities : AgentCapabilities
  security_schemes : List (String × SecuritySchemeDef) := []
  security : List (List (String × List String)) := []
  skills : List AgentSkill := []
  preferred_transport : Option String := none
  additional_interfaces : List AgentInterface := []
  deriving Repr, DecidableEq

def encCapabilities (c : AgentCapabilities) : Json :=
  .obj [(toCamelCustom "streaming", encOptBool c.streaming),
        (toCamelCustom "push_notifications", encOptBool c.push_notifications)]

def decCapabilities (j : Json) : Option AgentCapabilities :=
  match j with
  | .obj fs =>
    match (jLookup fs (toCamelCustom "streaming")).bind decOptBool,
          (jLookup fs (toCamelCustom "push_notifications")).bind decOptBool with
    | some streaming, some push =>
      some { streaming := streaming, push_notifications := push }
    | _, _ => none
  | _ => none

def encSkill (s : AgentSkill) : Json :=
  .obj [(toCamelCustom "id", .str s.id),
        (toCamelCustom "name", .str s.name),
        (toCamelCustom "description", .str s.description)]

def decSkill (j : Json) : Option AgentSkill :=
  match j with
  | .obj fs =>
    match (jLookup fs (toCamelCustom "id")).bind decStr,
          (jLookup fs (toCamelCustom "name")).bind decStr,
          (jLookup fs (toCamelCustom "description")).bind decStr with
    | some id, some name, some description =>
      some { id := id, name := name, description := description }
    | _, _, _ => none
  | _ => none

def encInterface (i : AgentInterface) : Json :=
  .obj [(toCamelCustom "transport", .str i.transport),
        (toCamelCustom "url", .str i.url)]

def decInterface (j : Json) : Option AgentInterface :=
  match j with
  | .obj fs =>
    match (jLookup fs (toCamelCustom "transport")).bind decStr,
          (jLookup fs (toCamelCustom "url")).bind decStr with
    | some transport, some url => some { transport := transport, url := url }
    | _, _ => none
  | _ => none

/-- One security requirement: a dict of scheme name to scope list. -/
def encRequirement (req : List (String × List String)) : Json :=
  .obj (req.map (fun p => (p.1, .arr (p.2.map Json.str))))

def decStrList (j : Json) : Option (List String) :=
  match j with
  | .arr js => decAll decStr js
  | _ => none

def decRequirement (j : Json) : Option (List (String × List String)) :=
  match j with
  | .obj fs => decPairs decStrList fs
  | _ => none

def encAgentCard (c : AgentCard) : Json :=
  .obj [(toCamelCustom "name", .str c.name),
        (toCamelCustom "url", .str c.url),
        (toCamelCustom "version", .str c.version),
        (toCamelCustom "capabilities", encCapabilities c.capabilities),
        (toCamelCustom "security_schemes",
          .obj (c.security_schemes.map (fun p => (p.1, encSecurityScheme p.2)))),
        (toCamelCustom "security", .arr (c.security.map encRequirement)),
        (toCamelCustom "skills", .arr (c.skills.map encSkill)),
        (toCamelCustom "preferred_transport", encOptStr c.preferred_transport),
        (toCamelCustom "additional_interfaces",
          .arr (c.additional_interfaces.map encInterface))]

def decAgentCard (j : Json) : Option AgentCard :=
  match j with
  | .obj fs =>
    match (jLookup fs (toCamelCustom "name")).bind decStr,
          (jLookup fs (toCamelCustom "url")).bind decStr,
          (jLookup fs (toCamelCustom "version")).bind decStr,
          (jLookup fs (toCamelCustom "capabilities")).bind decCapabilities,
          (jLookup fs (toCamelCustom "security_schemes")) with
    | some name, some url, some version, some capabilities,
        some (.obj schemeFields) =>
      match decPairs decSecurityScheme schemeFields,
            (jLookup fs (toCamelCustom "security")),
            (jLookup fs (toCamelCustom "skills")),
            (jLookup fs (toCamelCustom "preferred_transport")).bind decOptStr,
            (jLookup fs (toCamelCustom "additional_interfaces")) with
      | some schemes, some (.arr secJs), some (.arr skillJs), some pref,
          some (.arr ifaceJs) =>
        match decAll decRequirement secJs, decAll decSkill skillJs,
              decAll decInterface ifaceJs with
        | some security, some skills, some interfaces =>
          some { name := name, url := url, version := version,
                 capabilities := capabilities,
                 security_schemes := schemes, security := security,
                 skills := skills, preferred_transport := pref,
                 additional_interfaces := interfaces }
        | _, _, _ => none
      | _, _, _, _, _ => none
    | _, _, _, _, _ => none
  | _ => none

/-! ## Claim-side description of transport negotiation

The claim describes the negotiation declaratively; these definitions
follow its words, to be compared with `createResolveTransport`. -/

/-- The claim's server preference list: `card.preferred_transport`
    (defaulting to `'JSONRPC'`) followed by the transports of
    `card.additional_interfaces`. -/
def claimServerList (card : CardView) : List String :=
  pyOrStr card.preferred_transport "JSONRPC" ::
    card.additional_interfaces.map (·.transport)

/-- The claim's client list: `config.supported_transports`, defaulting
    to `['JSONRPC']`. -/
def claimClientList (config : ClientConfig) : List String :=
  if config.supported_transports = [] then ["JSONRPC"]
  else config.supported_transports

/-- The claim's resolved transport: the first client-listed transport
    also in the server list when `use_client_preference` is set, else
    the first server-listed transport also in the client list. -/
def claimResolvedTransport (card : CardView) (config : ClientConfig) :
    Option String :=
  if config.use_client_preference then
    (claimClientList config).find?
      (fun t => (claimServerList card).contains t)
  else
    (claimServerList card).find?
      (fun t => (claimClientList config).contains t)

/-! # Theorems -/

/-! ## C1: transport negotiation -/

theorem serverSet_eq_claim (card : CardView) :
    serverSet card = claimServerList card := by
  obtain ⟨pref, ifaces, caps⟩ := card
  cases ifaces <;>
    simp [serverSet, claimServerList, pyTruthyList]

theorem clientSet_eq_claim (config : ClientConfig) :
    clientSet config = claimClientList config := by
  obtain ⟨st, ts, pref⟩ := config
  cases ts <;>
    simp [clientSet, claimClientList, pyTruthyList]

theorem firstIn_eq_find (xs ys : List String) :
    firstIn xs ys = xs.find? (fun t => ys.contains t) := by
  induction xs with
  | nil => rfl
  | cons x rest ih =>
    by_cases hx : x ∈ ys <;>
      simp [firstIn, List.find?_cons, hx, ih]

/-- `createResolveTransport` in terms of the claim's negotiation: the
    code follows the claim except that a resolved empty-string transport
    is treated as no resolution (Python truthiness of `transport`). -/
theorem createResolveTransport_eq (registry : List String) (card : CardView)
    (config : ClientConfig) :
    createResolveTransport registry card config =
      (match claimResolvedTransport card config with
       | some t =>
         if t = "" then .error .noCompatibleTransport
         else if t ∈ registry then .ok t else .error (.noClientAvailable t)
       | none => .error .noCompatibleTransport) := by
  simp only [createResolveTransport, claimResolvedTransport,
    serverSet_eq_claim, clientSet_eq_claim, firstIn_eq_find]
  cases hpick :
      (if config.use_client_preference then
        (claimClientList config).find?
          (fun t => (claimServerList card).contains t)
      else
        (claimServerList card).find?
          (fun t => (claimClientList config).contains t)) with
  | none => simp [hpick, pyTruthyOptStr]
  | some t =>
    by_cases ht : t = "" <;>
      simp [hpick, pyTruthyOptStr, ht]

/-- **C1** (amended).  For every registry, `AgentCard` view and
    `ClientConfig`: when the claim's negotiation resolves a non-empty
    transport `t`, `create` uses `t` (instantiating the registered
    client, or failing with `'no client available'` when `t` has no
    registered producer); when the two lists have empty intersection,
    `create` raises the `'no compatible transport'` error.  In
    particular, server list `[GRPC, JSONRPC]` with client list
    `[JSONRPC]` and `use_client_preference=false` resolves `JSONRPC`.
    The original claim's universally-quantified resolution statement
    fails only for an empty-string transport label (see the
    counterexample). -/
theorem create_resolves_negotiated_transport (registry : List String)
    (card : CardView) (config : ClientConfig) :
    (∀ t, claimResolvedTransport card config = some t → t ≠ "" →
      createResolveTransport registry card config =
        (if t ∈ registry then .ok t else .error (.noClientAvailable t))) ∧
    (claimResolvedTransport card config = none →
      createResolveTransport registry card config =
        .error .noCompatibleTransport) := by
  refine ⟨fun t ht htne => ?_, fun hnone => ?_⟩
  · rw [createResolveTransport_eq, ht]
    simp [htne]
  · rw [createResolveTransport_eq, hnone]

/-- Witness for C1: scenario E, server preference `[GRPC, JSONRPC]`,
    client `[JSONRPC]`, server ordering → `JSONRPC`. -/
theorem create_resolves_negotiated_transport_witness :
    createResolveTransport ["JSONRPC"]
      { preferred_transport := some "GRPC",
        additional_interfaces := [{ transport := "JSONRPC", url := "u" }] }
      { supported_transports := ["JSONRPC"] } = .ok "JSONRPC" := by
  have h := (create_resolves_negotiated_transport ["JSONRPC"]
      { preferred_transport := some "GRPC",
        additional_interfaces := [{ transport := "JSONRPC", url := "u" }] }
      { supported_transports := ["JSONRPC"] }).1 "JSONRPC" rfl (by decide)
  rw [h]
  simp

/-- **C1** counterexample: with server list `[GRPC, ""]` and client list
    `[""]` (an empty-string transport label on both sides), the claim's
    negotiation resolves `""`, yet `create` raises the
    `'no compatible transports found.'` error — the claim's resolution
    statement is not true for every card and config. -/
theorem create_empty_transport_counterexample :
    claimResolvedTransport
        { preferred_transport := some "GRPC",
          additional_interfaces := [{ transport := "", url := "u" }] }
        { supported_transports := [""] } = some "" ∧
    createResolveTransport ["JSONRPC", ""]
        { preferred_transport := some "GRPC",
          additional_interfaces := [{ transport := "", url := "u" }] }
        { supported_transports := [""] } =
      .error .noCompatibleTransport := by
  exact ⟨rfl, rfl⟩

/-! ## C2: terminal states in the status-update fold -/

/-- The state of the last status-update event for the given task id. -/
def lastStatusStateFor (taskId : String) (es : List TaskStatusUpdateEvent) :
    Option TaskState :=
  ((es.filter (fun e => e.taskId = taskId)).getLast?).map (·.status.state)

theorem foldStatusUpdates_append (t : Task) (es : List TaskStatusUpdateEvent)
    (e : TaskStatusUpdateEvent) :
    foldStatusUpdates t (es ++ [e]) =
      applyStatusUpdate (foldStatusUpdates t es) e := by
  simp [foldStatusUpdates]

theorem applyStatusUpdate_id (t : Task) (e : TaskStatusUpdateEvent) :
    (applyStatusUpdate t e).id = t.id := by
  unfold applyStatusUpdate
  by_cases h : e.taskId = t.id <;> simp [h]

theorem foldStatusUpdates_id (t : Task) (es : List TaskStatusUpdateEvent) :
    (foldStatusUpdates t es).id = t.id := by
  induction es using List.reverseRecOn with
  | nil => rfl
  | append_singleton es e ih =>
    rw [foldStatusUpdates_append, applyStatusUpdate_id, ih]

/-- **C2** (amended).  The aggregator applies every matching
    status-update event unconditionally (spec §4.3 "on a status update,
    overwrite `status`"), so the folded state is simply the state of the
    last status-update event carrying the task's id (the initial state
    when there is none).  Terminal-state monotonicity is therefore an
    assumption on the event stream, not a property the fold enforces:
    once a terminal state is observed it persists only as long as no
    later status event for the task carries a different state. -/
theorem foldStatusUpdates_last_state (t : Task)
    (es : List TaskStatusUpdateEvent) :
    (foldStatusUpdates t es).status.state =
      (lastStatusStateFor t.id es).getD t.status.state := by
  induction es using List.reverseRecOn with
  | nil => rfl
  | append_singleton es e ih =>
    rw [foldStatusUpdates_append]
    unfold applyStatusUpdate lastStatusStateFor
    rw [foldStatusUpdates_id]
    by_cases h : e.taskId = t.id
    · simp [h, lastStatusStateFor]
    · simp only [h, if_false]
      rw [ih]
      simp [lastStatusStateFor, List.filter_append, h]

/-- **C2** counterexample: a `working` status event applied after a
    `completed` (terminal) one moves the task view back to a
    non-terminal state — the fold does not preserve terminal states. -/
theorem foldStatusUpdates_terminal_counterexample :
    (foldStatusUpdates
        { id := "t1", context_id := "c1", status := { state := .submitted } }
        [{ taskId := "t1", contextId := "c1",
           status := { state := .completed }, final := true }]).status.state.isTerminal
      = true ∧
    (foldStatusUpdates
        { id := "t1", context_id := "c1", status := { state := .submitted } }
        [{ taskId := "t1", contextId := "c1",
           status := { state := .completed }, final := true },
         { taskId := "t1", contextId := "c1",
           status := { state := .working }, final := false }]).status.state
      = .working ∧
    TaskState.isTerminal .working = false := by
  refine ⟨rfl, rfl, rfl⟩

/-! ## C3: blocking `send_message` makes one call and yields one item -/

/-- The single item yielded for a blocking `send_message` result: the
    `Message`, or the `(task, None)` pair. -/
def blockingYield : SendResult → ClientYield
  | .msg m => .msg m
  | .task t => .pair (some t) none

/-- **C3**.  For each of the three clients, when the client config has
    streaming disabled or the agent card does not declare the streaming
    capability, `send_message` performs exactly one blocking transport
    call, opens no streaming/SSE connection, and yields exactly one
    result: the `Message`, or the `(Task, None)` pair for a `Task`
    response (on the JSON-RPC path, for a successful response
    envelope). -/
theorem send_message_blocking_single_yield (config : ClientConfig)
    (card : CardView) (result : SendResult)
    (streamResps : List (JsonRpcResp StreamEvent))
    (streamEvents : List StreamEvent)
    (h : config.streaming = false ∨
         pyTruthyOptBool card.capabilities.streaming = false) :
    jsonRpcClientSendMessage config card (.success result) streamResps =
      .ok { blockingCalls := 1, streamingCalls := 0,
            yields := [blockingYield result] } ∧
    grpcClientSendMessage config card result streamEvents =
      { blockingCalls := 1, streamingCalls := 0,
        yields := [blockingYield result] } ∧
    restClientSendMessage config card result streamEvents =
      { blockingCalls := 1, streamingCalls := 0,
        yields := [blockingYield result] } := by
  have hb : (!config.streaming ||
      !pyTruthyOptBool card.capabilities.streaming) = true := by
    rcases h with h | h <;> simp [h]
  refine ⟨?_, ?_, ?_⟩ <;>
    · simp only [jsonRpcClientSendMessage, grpcClientSendMessage,
        restClientSendMessage, hb, if_true]
      cases result <;> rfl

/-- Witness for C3: a `completed` task response with streaming disabled
    in the config. -/
theorem send_message_blocking_single_yield_witness :
    jsonRpcClientSendMessage { streaming := false } {}
        (.success (.task { id := "t", context_id := "c",
                           status := { state := .completed } })) [] =
      .ok { blockingCalls := 1, streamingCalls := 0,
            yields := [.pair (some { id := "t", context_id := "c",
                                     status := { state := .completed } }) none] } :=
  (send_message_blocking_single_yield { streaming := false } {}
    (.task { id := "t", context_id := "c", status := { state := .completed } })
    [] [] (Or.inl rfl)).1

/-! ## C4: client-visible error kinds -/

/-- **C4** counterexample: on the blocking JSON-RPC path a server error
    envelope is re-raised as the structured JSON-RPC error object
    (`raise response.root.error`, `jsonrpc_client.py` lines 584-585),
    which is neither a `ClientHTTPError` nor a `ClientJSONError` — so
    those two are not the only error kinds a client caller can see. -/
theorem client_error_kinds_counterexample :
    jsonRpcClientSendMessage { streaming := false } {}
        (.errorEnvelope { code := -32601, message := "unsupported" }) [] =
      .error (.jsonRpcError { code := -32601, message := "unsupported" }) ∧
    RaisedError.isSpecClientKind
        (.jsonRpcError { code := -32601, message := "unsupported" }) = false := by
  exact ⟨rfl, rfl⟩

/-- **C4** (amended).  At the HTTP request layer the claim holds:
    `_send_request` maps every failure to exactly one of the two kinds —
    HTTP-status and network failures to `ClientHTTPError{status,message}`
    and undecodable bodies to `ClientJSONError`.  They are not, however,
    the only client-visible errors of a whole transport call: a JSON-RPC
    error envelope is re-raised as the structured protocol error and a
    response failing schema validation escapes `model_validate` (which
    sits outside `_send_request`'s `try`) unwrapped — see the
    counterexample. -/
theorem sendRequest_two_error_kinds (outcome : HttpPostOutcome)
    (e : RaisedError) (h : sendRequest outcome = .error e) :
    e.isSpecClientKind = true := by
  cases outcome with
  | statusError code detail =>
    cases h
    rfl
  | requestError detail =>
    cases h
    rfl
  | ok body =>
    cases body with
    | error msg =>
      cases h
      rfl
    | ok j => cases h

/-- Witness for C4's amended theorem: a network failure surfaces as
    `ClientHTTPError(503, ...)`, a spec-sanctioned kind. -/
theorem sendRequest_two_error_kinds_witness :
    sendRequest (.requestError "connection reset") =
      .error (.clientHTTP 503 "Network communication error: connection reset") ∧
    RaisedError.isSpecClientKind
      (.clientHTTP 503 "Network communication error: connection reset") = true :=
  ⟨rfl, sendRequest_two_error_kinds (.requestError "connection reset") _ rfl⟩

/-! ## C5: push-notification delivery failures -/

theorem dispatchNotification_config_ok (post : String → PostOutcome)
    (c : PushNotificationConfig) :
    dispatchNotification post (.config c) =
      .ok (c.url, !(post c.url == PostOutcome.success)) := by
  unfold dispatchNotification
  cases h : post c.url <;> simp [h]

theorem sendLoop_configs_ok (post : String → PostOutcome)
    (cs : List PushNotificationConfig) :
    sendNotification.sendLoop post (cs.map .config) =
      .ok (cs.map (fun c => (c.url, !(post c.url == PostOutcome.success)))) := by
  induction cs with
  | nil => rfl
  | cons c rest ih =>
    simp only [List.map_cons, sendNotification.sendLoop,
      dispatchNotification_config_ok, ih]
    rfl

/-- With a list-returning store (the database store's `get_info`),
    `send_notification` returns normally with one dispatch record per
    configured URL: an empty list short-circuits and every delivery
    failure is caught and logged. -/
theorem sendNotification_multi_ok (getInfo : String → GetInfoResult)
    (post : String → PostOutcome) (task : Task)
    (cs : List PushNotificationConfig) (h : getInfo task.id = .multi cs) :
    sendNotification getInfo post task =
      .ok (cs.map (fun c => (c.url, !(post c.url == PostOutcome.success)))) := by
  cases cs with
  | nil => simp [sendNotification, h, pyTruthyGetInfo]
  | cons c rest =>
    have hs := sendLoop_configs_ok post (c :: rest)
    simp only [List.map_cons] at hs
    simp [sendNotification, h, pyTruthyGetInfo, pushConfigsIter, hs]

/-- With a store following the interface's single-config signature (the
    in-memory store) and a config present, the loop iterates the
    pydantic model's field tuples and the attribute access on the first
    tuple raises before any POST is attempted. -/
theorem sendNotification_single_raises (getInfo : String → GetInfoResult)
    (post : String → PostOutcome) (task : Task)
    (c : PushNotificationConfig) (h : getInfo task.id = .single (some c)) :
    sendNotification getInfo post task =
      .error "AttributeError: 'tuple' object has no attribute 'url'" := by
  simp only [sendNotification, h]
  rfl

/-- **C5** (code bug).  `send_notification` evaluated at the failing
    input: with the interface-conforming in-memory store holding a
    config for the task, `for push_info in push_configs` iterates the
    single pydantic config's field tuples and `url = push_info.url`
    (`base_push_notification_sender.py` line 38, before the `try`)
    raises `AttributeError` to the caller — the delivery `try/except` is
    never reached, so the call fails the primary RPC, against the
    claim's "never raises".  With a list-returning store (the database
    store) the claimed behavior holds: a missing config does nothing and
    a failing POST is caught and recorded as logged. -/
theorem sendNotification_attribute_error_at_failing_input :
    sendNotification
        (fun t => if t = "t1" then .single (some { url := "http://callback" })
                  else .single none)
        (fun _ => .success)
        { id := "t1", context_id := "c", status := { state := .completed } } =
      .error "AttributeError: 'tuple' object has no attribute 'url'" ∧
    sendNotification
        (fun _ => .multi [{ url := "http://callback" }])
        (fun _ => .networkError "connection refused")
        { id := "t1", context_id := "c", status := { state := .completed } } =
      .ok [("http://callback", true)] ∧
    sendNotification (fun _ => .single none) (fun _ => .success)
        { id := "t1", context_id := "c", status := { state := .completed } } =
      .ok [] := by
  exact ⟨rfl, rfl, rfl⟩

/-! ## C6: double `add` on the Redis queue manager -/

/-- **C6**.  After a successful `add` for a task id, a second `add` for
    the same id on the same manager raises `TaskQueueExists` and returns
    the state untouched (in particular the local queue map and the
    global registry are unchanged by the failed call): the registry
    membership check happens before any mutation. -/
theorem redisAdd_second_raises (s s' : RedisManagerState) (taskId : String)
    (q q' : Nat) (h : redisAdd s taskId q = (none, s')) :
    redisAdd s' taskId q' = (some .taskQueueExists, s') ∧
    (redisAdd s' taskId q').2.localQueue = s'.localQueue ∧
    (redisAdd s' taskId q').2.registry = s'.registry := by
  have hmem : taskId ∈ s'.registry := by
    unfold redisAdd at h
    by_cases hm : taskId ∈ s.registry
    · simp [hm] at h
    · simp only [hm, if_neg, if_false] at h
      obtain ⟨-, h2⟩ := Prod.mk.injEq .. ▸ h
      rw [← h2]
      simp
  have hsecond : redisAdd s' taskId q' = (some .taskQueueExists, s') := by
    unfold redisAdd
    simp [hmem]
  exact ⟨hsecond, by rw [hsecond], by rw [hsecond]⟩

/-- Witness for C6: `add('t1', …)` twice on a fresh manager. -/
theorem redisAdd_second_raises_witness :
    redisAdd { localQueue := [("t1", 0)], registry := ["t1"],
               backgroundTasks := ["t1"] } "t1" 1 =
      (some .taskQueueExists,
       { localQueue := [("t1", 0)], registry := ["t1"],
         backgroundTasks := ["t1"] }) :=
  (redisAdd_second_raises {} _ "t1" 0 1 (by decide)).1

/-! ## C7: `close` is asymmetric for local and proxy queues -/

theorem find_filter_ne_none (l : List (String × Nat)) (k : String) :
    (l.filter (fun p => p.1 != k)).find? (fun p => p.1 == k) = none := by
  induction l with
  | nil => rfl
  | cons a rest ih =>
    by_cases ha : a.1 = k <;>
      simp [List.filter_cons, ha, List.find?_cons, ih]

theorem not_mem_filter_ne (l : List String) (k : String) :
    k ∉ l.filter (fun t => t != k) := by
  simp [List.mem_filter]

/-- **C7**.  `RedisQueueManager.close` behaves asymmetrically:
    * a task id with a local queue: no error, the local entry is
      removed, its queue is closed, the id is removed from the global
      registry, and the proxy map and channel subscriptions are
      untouched;
    * a task id with only a proxy queue: no error, the proxy entry is
      removed, its queue is closed, the channel is unsubscribed, and the
      global registry and local map are untouched;
    * a task id with neither: `NoTaskQueue` is raised and the state is
      untouched. -/
theorem redisClose_local_proxy_asymmetry (s : RedisManagerState)
    (taskId : String) :
    (hasLocalQueue s taskId = true →
      (redisClose s taskId).1 = none ∧
      hasLocalQueue (redisClose s taskId).2 taskId = false ∧
      taskId ∉ (redisClose s taskId).2.registry ∧
      (∀ p, s.localQueue.find? (fun q => q.1 == taskId) = some p →
        p.2 ∈ (redisClose s taskId).2.closedQueues) ∧
      (redisClose s taskId).2.proxyQueue = s.proxyQueue ∧
      (redisClose s taskId).2.subscribedChannels = s.subscribedChannels) ∧
    (hasLocalQueue s taskId = false → hasProxyQueue s taskId = true →
      (redisClose s taskId).1 = none ∧
      hasProxyQueue (redisClose s taskId).2 taskId = false ∧
      (redisClose s taskId).2.registry = s.registry ∧
      taskId ∉ (redisClose s taskId).2.subscribedChannels ∧
      (∀ p, s.proxyQueue.find? (fun q => q.1 == taskId) = some p →
        p.2 ∈ (redisClose s taskId).2.closedQueues) ∧
      (redisClose s taskId).2.localQueue = s.localQueue) ∧
    (hasLocalQueue s taskId = false → hasProxyQueue s taskId = false →
      redisClose s taskId = (some .noTaskQueue, s)) := by
  rcases hl : s.localQueue.find? (fun q => q.1 == taskId) with _ | p
  · rcases hp : s.proxyQueue.find? (fun q => q.1 == taskId) with _ | p
    · refine ⟨fun h => ?_, fun _ h => ?_, fun _ _ => ?_⟩
      · rw [hasLocalQueue, hl] at h
        cases h
      · rw [hasProxyQueue, hp] at h
        cases h
      · unfold redisClose
        rw [hl, hp]
    · refine ⟨fun h => ?_, fun _ _ => ?_, fun _ h => ?_⟩
      · rw [hasLocalQueue, hl] at h
        cases h
      · unfold redisClose
        rw [hl, hp]
        refine ⟨rfl, ?_, rfl, ?_, ?_, rfl⟩
        · simp [hasProxyQueue, find_filter_ne_none]
        · exact not_mem_filter_ne _ _
        · intro p' hp'
          cases hp'
          simp
      · rw [hasProxyQueue, hp] at h
        cases h
  · refine ⟨fun _ => ?_, fun h _ => ?_, fun h _ => ?_⟩
    · unfold redisClose
      rw [hl]
      refine ⟨rfl, ?_, ?_, ?_, rfl, rfl⟩
      · simp [hasLocalQueue, find_filter_ne_none]
      · exact not_mem_filter_ne _ _
      · intro p' hp'
        cases hp'
        simp
    · rw [hasLocalQueue, hl] at h
      cases h
    · rw [hasLocalQueue, hl] at h
      cases h

/-- Witness for C7: the three cases at concrete manager states — a
    local close empties the registry entry, a proxy close keeps it, and
    a close with no queue raises `NoTaskQueue`. -/
theorem redisClose_local_proxy_asymmetry_witness :
    ("t1" ∉ (redisClose { localQueue := [("t1", 5)], registry := ["t1"],
                          backgroundTasks := ["t1"] } "t1").2.registry) ∧
    ((redisClose { proxyQueue := [("t2", 7)], registry := ["t2"],
                   subscribedChannels := ["t2"] } "t2").2.registry = ["t2"]) ∧
    (redisClose ({} : RedisManagerState) "t3" =
      (some .noTaskQueue, ({} : RedisManagerState))) := by
  refine ⟨?_, ?_, ?_⟩
  · exact ((redisClose_local_proxy_asymmetry
      { localQueue := [("t1", 5)], registry := ["t1"],
        backgroundTasks := ["t1"] } "t1").1 (by decide)).2.2.1
  · exact ((redisClose_local_proxy_asymmetry
      { proxyQueue := [("t2", 7)], registry := ["t2"],
        subscribedChannels := ["t2"] } "t2").2.1 (by decide) (by decide)).2.2.1
  · exact (redisClose_local_proxy_asymmetry ({} : RedisManagerState)
      "t3").2.2 (by decide) (by decide)

/-! ## C8: the auth interceptor's frame -/

theorem trySchemeAttach_none_of_unhandled (cred : String)
    (sd : SecuritySchemeDef) (kwargs : HttpKwargs)
    (h : handlesScheme sd = false) :
    trySchemeAttach cred sd kwargs = none := by
  cases sd with
  | httpAuth scheme =>
    simp only [handlesScheme, decide_eq_false_iff_not] at h
    simp [trySchemeAttach, h]
  | oauth2 => simp [handlesScheme] at h
  | apiKey location name =>
    simp only [handlesScheme, decide_eq_false_iff_not] at h
    simp [trySchemeAttach, h]
  | otherScheme => rfl

theorem interceptNames_payload (creds : String → Option String)
    (schemes : List (String × Option SecuritySchemeDef))
    (payload : RequestPayload) (kwargs : HttpKwargs)
    (names : List String) (r : RequestPayload × HttpKwargs)
    (h : interceptNames creds schemes payload kwargs names = some r) :
    r.1 = payload := by
  induction names with
  | nil => exact absurd h (by simp [interceptNames])
  | cons name rest ih =>
    rw [interceptNames] at h
    split at h
    · split at h
      · split at h
        · cases h
          rfl
        · exact ih h
      · exact ih h
    · exact ih h

theorem interceptNames_none (creds : String → Option String)
    (schemes : List (String × Option SecuritySchemeDef))
    (payload : RequestPayload) (kwargs : HttpKwargs)
    (names : List String)
    (h : ∀ name ∈ names, usableCredentialFor creds schemes name = false) :
    interceptNames creds schemes payload kwargs names = none := by
  induction names with
  | nil => rfl
  | cons name rest ih =>
    have hname := h name (by simp)
    have hrest : ∀ n ∈ rest, usableCredentialFor creds schemes n = false :=
      fun n hn => h n (by simp [hn])
    rw [interceptNames]
    by_cases ht : pyTruthyOptStr (creds name) = true
    · unfold usableCredentialFor at hname
      rw [ht, Bool.true_and] at hname
      cases hg : schemesGet schemes name with
      | none => simp [ht, hg, ih hrest]
      | some osd =>
        cases osd with
        | none => simp [ht, hg, ih hrest]
        | some sd =>
          rw [hg] at hname
          simp [ht, hg,
            trySchemeAttach_none_of_unhandled ((creds name).getD "") sd kwargs
              hname,
            ih hrest]
    · have ht' : pyTruthyOptStr (creds name) = false := by
        cases hv : pyTruthyOptStr (creds name)
        · rfl
        · exact absurd hv ht
      simp [ht', ih hrest]

theorem interceptRequirements_payload (creds : String → Option String)
    (schemes : List (String × Option SecuritySchemeDef))
    (payload : RequestPayload) (kwargs : HttpKwargs)
    (reqs : List (List String)) (r : RequestPayload × HttpKwargs)
    (h : interceptRequirements creds schemes payload kwargs reqs = some r) :
    r.1 = payload := by
  induction reqs with
  | nil => exact absurd h (by simp [interceptRequirements])
  | cons req rest ih =>
    rw [interceptRequirements] at h
    cases hn : interceptNames creds schemes payload kwargs req with
    | some r' =>
      rw [hn] at h
      cases h
      exact interceptNames_payload creds schemes payload kwargs req _ hn
    | none =>
      rw [hn] at h
      exact ih h

theorem interceptRequirements_none (creds : String → Option String)
    (schemes : List (String × Option SecuritySchemeDef))
    (payload : RequestPayload) (kwargs : HttpKwargs)
    (reqs : List (List String))
    (h : ∀ req ∈ reqs, ∀ name ∈ req,
      usableCredentialFor creds schemes name = false) :
    interceptRequirements creds schemes payload kwargs reqs = none := by
  induction reqs with
  | nil => rfl
  | cons req rest ih =>
    rw [interceptRequirements,
      interceptNames_none creds schemes payload kwargs req
        (h req (by simp))]
    exact ih (fun rq hrq n hn => h rq (by simp [hrq]) n hn)

/-- **C8**.  `AuthInterceptor.intercept` never changes the request
    payload (it only ever rewrites headers inside `http_kwargs`); and
    when the agent card is absent, declares no security requirements or
    schemes, or no usable credential exists for any advertised scheme
    the interceptor handles, both the payload and `http_kwargs` come
    back exactly as given. -/
theorem authIntercept_frame (creds : String → Option String)
    (card : Option CardSecurityView) (payload : RequestPayload)
    (kwargs : HttpKwargs) :
    (authIntercept creds card payload kwargs).1 = payload ∧
    ((∀ c, card = some c → ∀ req ∈ c.security, ∀ name ∈ req,
        usableCredentialFor creds c.securitySchemes name = false) →
      authIntercept creds card payload kwargs = (payload, kwargs)) := by
  cases card with
  | none => exact ⟨rfl, fun _ => rfl⟩
  | some c =>
    unfold authIntercept
    by_cases hg : (!pyTruthyList c.security ||
        !pyTruthyList c.securitySchemes) = true
    · simp [hg]
    · rw [Bool.not_eq_true] at hg
      cases hr : interceptRequirements creds c.securitySchemes payload kwargs
          c.security with
      | some r =>
        refine ⟨?_, ?_⟩
        · simp only [hg, Bool.false_eq_true, if_false, hr]
          exact interceptRequirements_payload creds c.securitySchemes payload
            kwargs c.security r hr
        · intro hno
          rw [interceptRequirements_none creds c.securitySchemes payload
            kwargs c.security (hno c rfl)] at hr
          cases hr
      | none => simp [hg, hr]

/-- Witness for C8: a card advertising a bearer scheme, but a credential
    service with no credentials — the request proceeds unmodified. -/
theorem authIntercept_frame_witness :
    authIntercept (fun _ => none)
        (some { security := [["bearer"]],
                securitySchemes := [("bearer", some (.httpAuth "bearer"))] })
        { fields := [("jsonrpc", "2.0")] } {} =
      ({ fields := [("jsonrpc", "2.0")] }, {}) :=
  (authIntercept_frame (fun _ => none)
      (some { security := [["bearer"]],
              securitySchemes := [("bearer", some (.httpAuth "bearer"))] })
      { fields := [("jsonrpc", "2.0")] } {}).2
    (fun _ _ _ _ _ _ => rfl)

/-! ## C10: store cardinality — one config per task vs a list -/

theorem find_map_overwrite (l : List (String × PushNotificationConfig))
    (t : String) (c : PushNotificationConfig) :
    ((l.map (fun p => if p.1 == t then (t, c) else p)).find?
        (fun p => p.1 == t)) =
      (l.find? (fun p => p.1 == t)).map (fun _ => (t, c)) := by
  induction l with
  | nil => rfl
  | cons a rest ih =>
    cases hb : (a.1 == t) with
    | true =>
      rw [List.map_cons, if_pos hb, List.find?_cons, List.find?_cons, hb,
        beq_self_eq_true]
      rfl
    | false =>
      have ha : ¬ (a.1 == t) = true := by simp [hb]
      rw [List.map_cons, if_neg ha, List.find?_cons, List.find?_cons, hb, ih]

theorem find_append_single (l : List (String × PushNotificationConfig))
    (t : String) (c : PushNotificationConfig)
    (h : l.find? (fun p => p.1 == t) = none) :
    ((l ++ [(t, c)]).find? (fun p => p.1 == t)) = some (t, c) := by
  induction l with
  | nil => simp [List.find?]
  | cons a rest ih =>
    rw [List.find?_cons] at h
    cases hb : (a.1 == t) with
    | true => simp [hb] at h
    | false =>
      rw [hb] at h
      rw [List.cons_append, List.find?_cons, hb]
      exact ih h

theorem inMemory_set_get (store : InMemoryConfigStore) (t : String)
    (c : PushNotificationConfig) :
    inMemoryGetInfo (inMemorySetInfo store t c) t = some c := by
  unfold inMemorySetInfo dictSet inMemoryGetInfo
  by_cases h : (store.find? (fun p => p.1 == t)).isSome
  · obtain ⟨p, hp⟩ := Option.isSome_iff_exists.mp h
    rw [if_pos h, find_map_overwrite, hp]
    rfl
  · have hn : store.find? (fun p => p.1 == t) = none := by
      cases hf : store.find? (fun p => p.1 == t)
      · rfl
      · rw [hf] at h; simp at h
    rw [if_neg h, find_append_single store t c hn]
    rfl

/-- The id of a db-effective config is always present. -/
theorem dbEffectiveConfig_id_isSome (t : String)
    (c : PushNotificationConfig) :
    (dbEffectiveConfig t c).id.isSome := by
  unfold dbEffectiveConfig
  cases h : c.id <;> simp [h]

/-- **C10**.  The in-memory store keeps exactly one config per task id:
    `set_info` overwrites, so after two writes `get_info` returns only
    the most recent config, and an absent task id yields `None`.  The
    database store keeps a list keyed by `config_id`: two writes with
    distinct effective config ids both survive, and `get_info` returns
    them all. -/
theorem push_config_store_cardinality :
    (∀ (store : InMemoryConfigStore) (t : String)
        (c₁ c₂ : PushNotificationConfig),
      inMemoryGetInfo (inMemorySetInfo (inMemorySetInfo store t c₁) t c₂) t =
        some c₂) ∧
    (∀ t : String, inMemoryGetInfo [] t = none) ∧
    (∀ (t : String) (c₁ c₂ : PushNotificationConfig),
      (dbEffectiveConfig t c₁).id ≠ (dbEffectiveConfig t c₂).id →
      dbGetInfo (dbSetInfo (dbSetInfo [] t c₁) t c₂) t =
        [dbEffectiveConfig t c₁, dbEffectiveConfig t c₂]) := by
  refine ⟨fun store t c₁ c₂ => inMemory_set_get _ t c₂,
          fun t => rfl,
          fun t c₁ c₂ hne => ?_⟩
  have hkey : ((dbEffectiveConfig t c₁).id.getD "" ==
      (dbEffectiveConfig t c₂).id.getD "") = false := by
    obtain ⟨k₁, hk₁⟩ := Option.isSome_iff_exists.mp
      (dbEffectiveConfig_id_isSome t c₁)
    obtain ⟨k₂, hk₂⟩ := Option.isSome_iff_exists.mp
      (dbEffectiveConfig_id_isSome t c₂)
    rw [hk₁, hk₂]
    rw [hk₁, hk₂] at hne
    simpa using fun he => hne (by rw [he])
  unfold dbSetInfo dbGetInfo
  simp only [List.find?_nil, Option.isSome_none, Bool.false_eq_true,
    if_false, List.nil_append]
  rw [List.find?_cons]
  simp [hkey]

/-- Witness for C10: two configs with distinct ids under one task id —
    the in-memory store retains only the second, the database store
    retains both. -/
theorem push_config_store_cardinality_witness :
    inMemoryGetInfo
        (inMemorySetInfo
          (inMemorySetInfo [] "t" { id := some "c1", url := "u1" })
          "t" { id := some "c2", url := "u2" }) "t" =
      some { id := some "c2", url := "u2" } ∧
    dbGetInfo
        (dbSetInfo (dbSetInfo [] "t" { id := some "c1", url := "u1" })
          "t" { id := some "c2", url := "u2" }) "t" =
      [{ id := some "c1", url := "u1" }, { id := some "c2", url := "u2" }] :=
  ⟨push_config_store_cardinality.1 [] "t"
      { id := some "c1", url := "u1" } { id := some "c2", url := "u2" },
   push_config_store_cardinality.2.2 "t"
      { id := some "c1", url := "u1" } { id := some "c2", url := "u2" }
      (by decide)⟩

/-! ## C9: the camelCase wire round trip -/

/-- The alias generator evaluated on every field name the models use;
    note the trailing-underscore handling on `in_` (the alias pydantic
    generates for the API-key `in` field). -/
theorem toCamelCustom_values :
    toCamelCustom "role" = "role" ∧
    toCamelCustom "parts" = "parts" ∧
    toCamelCustom "message_id" = "messageId" ∧
    toCamelCustom "task_id" = "taskId" ∧
    toCamelCustom "context_id" = "contextId" ∧
    toCamelCustom "state" = "state" ∧
    toCamelCustom "message" = "message" ∧
    toCamelCustom "timestamp" = "timestamp" ∧
    toCamelCustom "artifact_id" = "artifactId" ∧
    toCamelCustom "name" = "name" ∧
    toCamelCustom "id" = "id" ∧
    toCamelCustom "status" = "status" ∧
    toCamelCustom "artifacts" = "artifacts" ∧
    toCamelCustom "history" = "history" ∧
    toCamelCustom "streaming" = "streaming" ∧
    toCamelCustom "push_notifications" = "pushNotifications" ∧
    toCamelCustom "security_schemes" = "securitySchemes" ∧
    toCamelCustom "security" = "security" ∧
    toCamelCustom "skills" = "skills" ∧
    toCamelCustom "capabilities" = "capabilities" ∧
    toCamelCustom "preferred_transport" = "preferredTransport" ∧
    toCamelCustom "additional_interfaces" = "additionalInterfaces" ∧
    toCamelCustom "transport" = "transport" ∧
    toCamelCustom "url" = "url" ∧
    toCamelCustom "version" = "version" ∧
    toCamelCustom "description" = "description" ∧
    toCamelCustom "in_" = "in" :=
  ⟨rfl, rfl, rfl, rfl, rfl, rfl, rfl, rfl, rfl, rfl, rfl, rfl, rfl, rfl,
   rfl, rfl, rfl, rfl, rfl, rfl, rfl, rfl, rfl, rfl, rfl, rfl, rfl⟩

theorem decAll_enc {α : Type} (d : Json → Option α) (e : α → Json)
    (h : ∀ x, d (e x) = some x) (xs : List α) :
    decAll d (xs.map e) = some xs := by
  induction xs with
  | nil => rfl
  | cons x rest ih => rw [List.map_cons, decAll, h x, ih]

theorem decPairs_enc {α : Type} (d : Json → Option α) (e : α → Json)
    (h : ∀ x, d (e x) = some x) (xs : List (String × α)) :
    decPairs d (xs.map (fun p => (p.1, e p.2))) = some xs := by
  induction xs with
  | nil => rfl
  | cons p rest ih =>
    rw [List.map_cons, decPairs, h p.2, ih]

theorem decOptStr_enc (o : Option String) : decOptStr (encOptStr o) = some o := by
  cases o <;> rfl

theorem decOptBool_enc (o : Option Bool) : decOptBool (encOptBool o) = some o := by
  cases o <;> rfl

theorem decRole_wireName (r : Role) : decRole (.str r.wireName) = some r := by
  cases r <;> rfl

theorem decTaskState_wireName (s : TaskState) :
    decTaskState (.str s.wireName) = some s := by
  cases s <;> rfl

theorem decPart_enc (p : Part) : decPart (encPart p) = some p := by
  cases p <;> rfl

theorem decPartList_enc (ps : List Part) :
    decPartList (.arr (ps.map encPart)) = some ps := by
  rw [decPartList, decAll_enc decPart encPart decPart_enc]

theorem decMessage_enc (m : Message) : decMessage (encMessage m) = some m := by
  obtain ⟨r, ps, mid, tid, cid⟩ := m
  simp [encMessage, decMessage, toCamelCustom_values, jLookup,
    decRole_wireName, decPartList_enc, decOptStr_enc, decStr]

theorem decOptMessage_enc (om : Option Message) :
    decOptMessage (encOptMessage om) = some om := by
  cases om with
  | none => rfl
  | some m =>
    show (decMessage (encMessage m)).map some = some (some m)
    rw [decMessage_enc]
    rfl

theorem decTaskStatus_enc (st : TaskStatus) :
    decTaskStatus (encTaskStatus st) = some st := by
  obtain ⟨state, message, timestamp⟩ := st
  simp [encTaskStatus, decTaskStatus, toCamelCustom_values, jLookup,
    decTaskState_wireName, decOptMessage_enc, decOptStr_enc]

theorem decArtifact_enc (a : Artifact) : decArtifact (encArtifact a) = some a := by
  obtain ⟨aid, name, parts⟩ := a
  simp [encArtifact, decArtifact, toCamelCustom_values, jLookup,
    decOptStr_enc, decPartList_enc, decStr]

theorem decTask_enc (t : Task) : decTask (encTask t) = some t := by
  obtain ⟨tid, cid, status, artifacts, history⟩ := t
  simp [encTask, decTask, toCamelCustom_values, jLookup, decTaskStatus_enc,
    decAll_enc decArtifact encArtifact decArtifact_enc,
    decAll_enc decMessage encMessage decMessage_enc, decStr]

theorem decCapabilities_enc (c : AgentCapabilities) :
    decCapabilities (encCapabilities c) = some c := by
  obtain ⟨streaming, push⟩ := c
  simp [encCapabilities, decCapabilities, toCamelCustom_values, jLookup,
    decOptBool_enc]

theorem decSkill_enc (s : AgentSkill) : decSkill (encSkill s) = some s := by
  obtain ⟨id, name, description⟩ := s
  rfl

theorem decInterface_enc (i : AgentInterface) :
    decInterface (encInterface i) = some i := by
  obtain ⟨transport, url⟩ := i
  rfl

theorem decSecurityScheme_enc (sd : SecuritySchemeDef) :
    decSecurityScheme (encSecurityScheme sd) = some sd := by
  cases sd with
  | apiKey location name => cases location <;> rfl
  | _ => rfl

theorem decStrList_enc (xs : List String) :
    decStrList (.arr (xs.map Json.str)) = some xs := by
  rw [decStrList, decAll_enc decStr Json.str (fun _ => rfl)]

theorem decRequirement_enc (req : List (String × List String)) :
    decRequirement (encRequirement req) = some req := by
  rw [encRequirement, decRequirement,
    decPairs_enc decStrList (fun scopes => .arr (scopes.map Json.str))
      decStrList_enc]

theorem decAgentCard_enc (c : AgentCard) : decAgentCard (encAgentCard c) = some c := by
  obtain ⟨name, url, version, caps, schemes, security, skills, pref, ifaces⟩ := c
  simp [encAgentCard, decAgentCard, toCamelCustom_values, jLookup,
    decCapabilities_enc,
    decPairs_enc decSecurityScheme encSecurityScheme decSecurityScheme_enc,
    decAll_enc decRequirement encRequirement decRequirement_enc,
    decAll_enc decSkill encSkill decSkill_enc,
    decAll_enc decInterface encInterface decInterface_enc,
    decOptStr_enc, decStr]

/-- **C9**.  Serializing a `Task`, `Message` or `AgentCard` to wire JSON
    under the `to_camel_custom`-generated aliases and validating the
    result back yields a structurally equal value: the snake_case to
    camelCase aliasing loses no field information. -/
theorem wire_roundtrip_lossless :
    (∀ t : Task, decTask (encTask t) = some t) ∧
    (∀ m : Message, decMessage (encMessage m) = some m) ∧
    (∀ c : AgentCard, decAgentCard (encAgentCard c) = some c) :=
  ⟨decTask_enc, decMessage_enc, decAgentCard_enc⟩

end A2A
